import Mathlib

/-!
Verification of the scrapepref repository: a shallow embedding, in Lean, of the
parts of the code that the specification's claims talk about, together with
theorems settling each claim.

Embedded source functions:
* `download_pdf` (src/src/scraper.py lines 118-255, identical copy in
  src/rescrape_missing_s3.py lines 109-239, and the near-identical
  `download_pdf_with_js_redirect` in src/download_pdf_final.py): the
  redirect-following PDF downloader.
* `save_to_csv` (src/src/scraper.py lines 866-893): the ledger merge.
* `extract_arrete_info`'s content hash (src/src/scraper.py line 604):
  `hashlib.md5(f"{numero}{titre}".encode()).hexdigest()[:8]`, embedded with a
  full MD5 implementation.
* the archival loop of `scrape_arretes` (src/src/scraper.py lines 812-848) and
  `process_csv` of src/rescrape_missing_s3.py (lines 255-388).

External collaborators (the HTTP session, `urljoin`, the S3 client, the float
formatting of sizes) are passed in as function parameters, mirroring the spec's
"treated as external collaborators" scope note.  HTML documents are modelled as
already-parsed structures (BeautifulSoup is such a collaborator); the regex
searches that the code runs over script text and attribute values are embedded
character by character.

Python string primitives (`in`, `startswith`, `strip`, `lower`, slicing) are
modelled on `List Char`, which matches Python's code-point semantics.
-/

namespace ScrapePref

/-! ## Python string primitives -/

/-- Truth of `listStarts hay needle` holds iff `needle` is a leading segment of `hay`.
Models Python `str.startswith` on code points. -/
def listStarts : List Char → List Char → Bool
  | _, [] => true
  | [], _ :: _ => false
  | h :: hs, n :: ns => h == n && listStarts hs ns

/-- Truth of `listHasSub hay needle` holds iff `needle` occurs contiguously inside
`hay`.  Models Python's `needle in hay` on strings. -/
def listHasSub : List Char → List Char → Bool
  | [], needle => needle.isEmpty
  | h :: t, needle => listStarts (h :: t) needle || listHasSub t needle

/-- Python `needle in hay` for strings. -/
def strHasSub (hay needle : String) : Bool :=
  listHasSub hay.data needle.data

/-- Python `hay.startswith(needle)`. -/
def pyStartsWith (hay needle : String) : Bool :=
  listStarts hay.data needle.data

/-- Python `hay.endswith(needle)`. -/
def pyEndsWith (hay needle : String) : Bool :=
  listStarts hay.data.reverse needle.data.reverse

/-- Python `s.lower()` (ASCII letters; the strings compared in the code are
ASCII). -/
def pyLower (s : String) : String :=
  String.mk (s.data.map Char.toLower)

/-- Python `s.strip()`: drop leading and trailing whitespace. -/
def pyStrip (s : String) : String :=
  String.mk (((s.data.dropWhile Char.isWhitespace).reverse.dropWhile Char.isWhitespace).reverse)

/-- Python `s[:n]` on strings (slice of the first `n` code points). -/
def pySlice (s : String) (n : Nat) : String :=
  String.mk (s.data.take n)

/-! ## The parsing collaborator's view of an HTML response

`download_pdf` hands the response body to BeautifulSoup and then inspects
scripts, meta tags and anchors.  The parse tree is external input to the logic
under verification, so an HTML document is modelled as the lists the code
iterates over, in document order. -/

/-- One `<meta>` element: its `http-equiv` attribute (if present) and its
`content` attribute (`meta.get('content', '')` defaults to the empty string). -/
structure MetaTag where
  httpEquiv : Option String
  content : String
  deriving DecidableEq, Repr

/-- A parsed HTML document, restricted to what `download_pdf` looks at:
the text of each `<script>` element, the `<meta>` elements, and the `href`
values of the `<a href=...>` elements, each in document order. -/
structure HtmlDoc where
  scripts : List String
  metas : List MetaTag
  anchors : List String
  deriving DecidableEq, Repr

/-- An HTTP response: the declared `Content-Type` header value, the body bytes
(`response.content`), and the parsed document (`BeautifulSoup(response.text)`,
meaningful only when the content type is HTML). -/
structure HttpResponse where
  contentType : String
  bytes : List Nat
  doc : HtmlDoc
  deriving DecidableEq, Repr

/-! ## Regex searches used by the downloader

`re.search(pat, text)` finds the leftmost position where `pat` matches.  Each
pattern used by `download_pdf` is simple enough that greedy matching with a
character-by-character scan is exact (the character classes exclude the
delimiters, so no backtracking into the capture is possible). -/

/-- Try to match, at the head of `cs`, the tail of the pattern
`key \s* = \s* ['"]([^'"]+)['"]` where `key` has already been fixed: returns
the capture group on success.  `q` ranges over both quote characters. -/
def quotedAssignAt (key : List Char) (cs : List Char) : Option (List Char) :=
  if listStarts cs key then
    let rest := (cs.drop key.length).dropWhile Char.isWhitespace
    match rest with
    | '=' :: rest1 =>
      match rest1.dropWhile Char.isWhitespace with
      | q :: body =>
        if q == Char.ofNat 39 || q == '"' then
          let cap := body.takeWhile (fun c => !(c == Char.ofNat 39 || c == '"'))
          match body.drop cap.length with
          | c :: _ =>
            if (c == Char.ofNat 39 || c == '"') && !cap.isEmpty then some cap else none
          | [] => none
        else none
      | [] => none
    | _ => none
  else none

/-- Search `re.search(key + r"\s*=\s*['\"]([^'\"]+)['\"]", text)`: scan left to right
for the first position where the whole pattern matches; return the capture. -/
def searchQuotedAssign (key : List Char) : List Char → Option (List Char)
  | [] => none
  | c :: cs =>
    match quotedAssignAt key (c :: cs) with
    | some cap => some cap
    | none => searchQuotedAssign key cs

/-- The two script patterns of `download_pdf`, tried in source order on one
script's text: first `window\.location\.href\s*=\s*['"]([^'"]+)['"]`, then
`window\.location\s*=\s*['"]([^'"]+)['"]`. -/
def findJsInScript (s : String) : Option String :=
  match searchQuotedAssign "window.location.href".data s.data with
  | some cap => some (String.mk cap)
  | none =>
    match searchQuotedAssign "window.location".data s.data with
    | some cap => some (String.mk cap)
    | none => none

/-- Try to match `url=([^\s;]+)` (case-insensitive on the literal letters) at
the head of `cs`. -/
def urlParamAt : List Char → Option (List Char)
  | u :: r :: l :: '=' :: rest =>
    if u.toLower == 'u' && r.toLower == 'r' && l.toLower == 'l' then
      let cap := rest.takeWhile (fun c => !(c.isWhitespace || c == ';'))
      if cap.isEmpty then none else some cap
    else none
  | _ => none

/-- Search `re.search(r'url=([^\s;]+)', content, re.I)`: leftmost match. -/
def searchUrlParam : List Char → Option (List Char)
  | [] => none
  | c :: cs =>
    match urlParamAt (c :: cs) with
    | some cap => some cap
    | none => searchUrlParam cs

/-! ## The redirect search of `download_pdf` (HTML branch) -/

/-- The filter `re.search(r'refresh', http_equiv, re.I)` as used by
`soup.find('meta', attrs={'http-equiv': re.compile(r'refresh', re.I)})`:
the meta qualifies iff it has an `http-equiv` attribute containing
`refresh` case-insensitively. -/
def isRefreshMeta (m : MetaTag) : Bool :=
  match m.httpEquiv with
  | some v => strHasSub (pyLower v) "refresh"
  | none => false

/-- The query `soup.find('a', href=re.compile(r'\.pdf', re.I))`: the first anchor whose
`href` contains `.pdf` case-insensitively (the regex is unanchored). -/
def findAnchorPdf (anchors : List String) : Option String :=
  anchors.find? (fun h => strHasSub (pyLower h) ".pdf")

/-- The redirect-target search of `download_pdf`'s HTML branch, in source
order: (1) per script, the `window.location.href` assignment pattern then the
`window.location` assignment pattern, first script with a match wins;
(2) the first meta tag whose `http-equiv` contains `refresh` — its `content`
is searched for `url=...`, and when that search fails the code falls through;
(3) the first anchor whose `href` contains `.pdf`. -/
def findRedirect (doc : HtmlDoc) : Option String :=
  match doc.scripts.findSome? findJsInScript with
  | some u => some u
  | none =>
    match doc.metas.find? isRefreshMeta with
    | some m =>
      match searchUrlParam m.content.data with
      | some cap => some (String.mk cap)
      | none => findAnchorPdf doc.anchors
    | none => findAnchorPdf doc.anchors

/-! ## The downloader loop -/

/-- The magic signature `b'%PDF'` as bytes. -/
def pdfMagic : List Nat := [37, 80, 68, 70]

/-- The test `'application/pdf' in content_type or 'application/octet-stream' in
content_type`, on the already-lowercased content type. -/
def isPdfCT (ct : String) : Bool :=
  strHasSub ct "application/pdf" || strHasSub ct "application/octet-stream"

/-- The step `if not redirect_url.startswith('http'): redirect_url = urljoin(current_url,
redirect_url)` — `join` is the external `urllib.parse.urljoin`. -/
def resolveUrl (join : String → String → String) (current u : String) : String :=
  if pyStartsWith u "http" then u else join current u

/-- Why a `download_pdf` run returned `False`. -/
inductive FailReason where
  /-- the bounded loop ran out (`max_redirects` reached) -/
  | tooManyRedirects
  /-- a network/timeout/HTTP-status exception from the GET, caught by the
  `except` clauses and turned into `False` -/
  | netError
  /-- declared PDF or octet-stream but the body does not begin with `%PDF` -/
  | badMagic
  /-- HTML page with none of the three redirect searches succeeding -/
  | noRedirect
  /-- a content type that is neither PDF/octet-stream nor HTML -/
  | badContentType
  deriving DecidableEq, Repr

/-- The observable outcome of one `download_pdf` call: the returned boolean,
every byte string written to `output_path` (`output_path.write_bytes` calls, in
order), the number of JavaScript/meta/anchor redirect hops taken, and the
failure reason if any. -/
structure RunResult where
  ok : Bool
  writes : List (List Nat)
  hops : Nat
  reason : Option FailReason
  deriving DecidableEq, Repr

/-- The `while redirect_count < max_redirects` loop of `download_pdf`, with
`fuel = max_redirects - redirect_count`.  `fetch` models `session.get` followed
by `response.raise_for_status()`: `none` means the GET raised (timeout,
connection error, or HTTP error status), which the surrounding `try` turns into
a `False` return.  The preliminary session-bootstrap GET has no observable
effect in this model (its own exceptions are swallowed by the code). -/
def downloadLoop (fetch : String → Option HttpResponse)
    (join : String → String → String) : Nat → String → RunResult
  | 0, _ => { ok := false, writes := [], hops := 0, reason := some .tooManyRedirects }
  | fuel + 1, url =>
    match fetch url with
    | none => { ok := false, writes := [], hops := 0, reason := some .netError }
    | some resp =>
      let ct := pyLower resp.contentType
      if isPdfCT ct then
        if resp.bytes.take 4 = pdfMagic then
          { ok := true, writes := [resp.bytes], hops := 0, reason := none }
        else
          { ok := false, writes := [], hops := 0, reason := some .badMagic }
      else if strHasSub ct "text/html" then
        match findRedirect resp.doc with
        | some t =>
          let r := downloadLoop fetch join fuel (resolveUrl join url t)
          { r with hops := r.hops + 1 }
        | none => { ok := false, writes := [], hops := 0, reason := some .noRedirect }
      else
        { ok := false, writes := [], hops := 0, reason := some .badContentType }

/-- The full `download_pdf(pdf_url, output_path)` with its fixed `max_redirects = 5`. -/
def download_pdf (fetch : String → Option HttpResponse)
    (join : String → String → String) (url : String) : RunResult :=
  downloadLoop fetch join 5 url

/-! ## Concrete fixtures used by witnesses and counterexamples -/

/-- A join collaborator for runs in which every redirect target is absolute
(so `urljoin` is never consulted). -/
def joinId : String → String → String := fun u _ => u

/-- An empty parse tree. -/
def emptyDoc : HtmlDoc := { scripts := [], metas := [], anchors := [] }

/-- A response declaring PDF whose body does begin with `%PDF`. -/
def respGoodPdf : HttpResponse :=
  { contentType := "application/pdf", bytes := [37, 80, 68, 70, 49], doc := emptyDoc }

/-- A server that always answers with a valid PDF. -/
def fetchGoodPdf : String → Option HttpResponse := fun _ => some respGoodPdf

/-- A response declaring PDF whose body does not begin with `%PDF`. -/
def respBadMagic : HttpResponse :=
  { contentType := "application/pdf", bytes := [60, 104, 116, 109], doc := emptyDoc }

/-- A server that always answers with a content-type lie. -/
def fetchBadMagic : String → Option HttpResponse := fun _ => some respBadMagic

/-- An HTML page whose only redirect hint is an anchor to `/x.pdf`. -/
def respHtmlLoop : HttpResponse :=
  { contentType := "text/html", bytes := [], doc := { scripts := [], metas := [], anchors := ["/x.pdf"] } }

/-- A server on which every page is HTML pointing at further HTML. -/
def fetchHtmlLoop : String → Option HttpResponse := fun _ => some respHtmlLoop

/-- A server that always raises a network exception. -/
def fetchDown : String → Option HttpResponse := fun _ => none

/-! ## Claim C1 — the magic-byte gate -/

/-- Claim C1: whenever a fetched response declares a PDF or generic binary
stream content type, the downloader succeeds at that response iff the first
four body bytes are `%PDF`; on a mismatch it returns failure immediately —
nothing written, no redirect hop taken, no retry of the URL. -/
theorem c1_magic_byte_gate (fetch : String → Option HttpResponse)
    (join : String → String → String) (url : String) (fuel : Nat)
    (resp : HttpResponse) (hf : fetch url = some resp)
    (hct : isPdfCT (pyLower resp.contentType) = true) :
    ((downloadLoop fetch join (fuel + 1) url).ok = true ↔ resp.bytes.take 4 = pdfMagic) ∧
    (resp.bytes.take 4 ≠ pdfMagic →
      downloadLoop fetch join (fuel + 1) url =
        { ok := false, writes := [], hops := 0, reason := some .badMagic }) := by
  unfold downloadLoop
  rw [hf]
  simp only [hct, if_true]
  by_cases hb : resp.bytes.take 4 = pdfMagic <;> simp [hb]

/-- Witness for C1 at a concrete server: a declared PDF with a `<htm` body is
rejected with no write and no hop. -/
theorem c1_magic_byte_gate_witness :
    ((downloadLoop fetchBadMagic joinId 5 "http://a/doc").ok = true ↔
      respBadMagic.bytes.take 4 = pdfMagic) ∧
    (respBadMagic.bytes.take 4 ≠ pdfMagic →
      downloadLoop fetchBadMagic joinId 5 "http://a/doc" =
        { ok := false, writes := [], hops := 0, reason := some .badMagic }) :=
  c1_magic_byte_gate fetchBadMagic joinId "http://a/doc" 4 respBadMagic rfl (by decide)

/-! ## Claim C3 — the redirect loop is bounded at 5 hops -/

/-- On a server where every page is a non-PDF HTML page yielding a further
redirect target, the loop burns exactly its remaining fuel in redirect hops
and fails with the too-many-redirects condition. -/
theorem downloadLoop_all_html (fetch : String → Option HttpResponse)
    (join : String → String → String)
    (h : ∀ u, ∃ r, fetch u = some r ∧ isPdfCT (pyLower r.contentType) = false ∧
      strHasSub (pyLower r.contentType) "text/html" = true ∧
      (findRedirect r.doc).isSome = true) :
    ∀ fuel url, downloadLoop fetch join fuel url =
      { ok := false, writes := [], hops := fuel, reason := some .tooManyRedirects } := by
  intro fuel
  induction fuel with
  | zero => intro url; rfl
  | succ n ih =>
    intro url
    obtain ⟨r, hf, hpdf, hhtml, hsome⟩ := h url
    obtain ⟨t, ht⟩ := Option.isSome_iff_exists.mp hsome
    unfold downloadLoop
    rw [hf]
    simp only [hpdf, hhtml, ht, if_true, Bool.false_eq_true, if_false, ih]

/-- Claim C3: for every input URL, if every fetched page is a non-PDF HTML page
that yields another redirect target, `download_pdf` terminates with failure
(too many redirects) after exactly 5 redirect hops. -/
theorem c3_redirect_loop_bounded (fetch : String → Option HttpResponse)
    (join : String → String → String) (url : String)
    (h : ∀ u, ∃ r, fetch u = some r ∧ isPdfCT (pyLower r.contentType) = false ∧
      strHasSub (pyLower r.contentType) "text/html" = true ∧
      (findRedirect r.doc).isSome = true) :
    download_pdf fetch join url =
      { ok := false, writes := [], hops := 5, reason := some .tooManyRedirects } :=
  downloadLoop_all_html fetch join h 5 url

/-- Witness for C3: a concrete server on which every page is HTML with a
`.pdf` anchor; the run fails after exactly 5 hops. -/
theorem c3_redirect_loop_bounded_witness :
    download_pdf fetchHtmlLoop joinId "http://a/start" =
      { ok := false, writes := [], hops := 5, reason := some .tooManyRedirects } :=
  c3_redirect_loop_bounded fetchHtmlLoop joinId "http://a/start"
    (fun _ => ⟨respHtmlLoop, rfl, by decide, by decide, by decide⟩)

/-! ## Claim C5 — network faults are failures, not crashes -/

/-- Claim C5: the downloader is a total function of its inputs (it always
returns an outcome), and a timeout or any other network exception raised by
the GET at any iteration of the loop makes it return the failure outcome,
with nothing written.  Exceptions cannot propagate: every `session.get` /
`raise_for_status` fault is the `fetch url = none` case, which the `except`
clauses of the source map to `return False`. -/
theorem c5_network_fault_is_failure (fetch : String → Option HttpResponse)
    (join : String → String → String) (url : String) (fuel : Nat)
    (hf : fetch url = none) :
    downloadLoop fetch join (fuel + 1) url =
      { ok := false, writes := [], hops := 0, reason := some .netError } := by
  unfold downloadLoop
  rw [hf]

/-- Witness for C5 at a concrete always-raising server. -/
theorem c5_network_fault_is_failure_witness :
    downloadLoop fetchDown joinId 5 "http://a/doc" =
      { ok := false, writes := [], hops := 0, reason := some .netError } :=
  c5_network_fault_is_failure fetchDown joinId "http://a/doc" 4 rfl

/-- The defining equation of `downloadLoop` at positive fuel, used to rewrite
a single loop iteration without unfolding recursive occurrences. -/
theorem downloadLoop_succ (fetch : String → Option HttpResponse)
    (join : String → String → String) (fuel : Nat) (url : String) :
    downloadLoop fetch join (fuel + 1) url =
      (match fetch url with
       | none => { ok := false, writes := [], hops := 0, reason := some .netError }
       | some resp =>
         let ct := pyLower resp.contentType
         if isPdfCT ct then
           if resp.bytes.take 4 = pdfMagic then
             { ok := true, writes := [resp.bytes], hops := 0, reason := none }
           else
             { ok := false, writes := [], hops := 0, reason := some .badMagic }
         else if strHasSub ct "text/html" then
           match findRedirect resp.doc with
           | some t =>
             let r := downloadLoop fetch join fuel (resolveUrl join url t)
             { r with hops := r.hops + 1 }
           | none => { ok := false, writes := [], hops := 0, reason := some .noRedirect }
         else
           { ok := false, writes := [], hops := 0, reason := some .badContentType }) := rfl

/-! ## Claim C9 — no write before validation, no write on failure -/

/-- Claim C9: the downloader writes to the output path only after the
magic-byte validation has succeeded.  If the run returns failure, nothing was
written; conversely anything that was written begins with `%PDF` and the run
returned success. -/
theorem c9_write_only_after_validation (fetch : String → Option HttpResponse)
    (join : String → String → String) (fuel : Nat) (url : String) :
    ((downloadLoop fetch join fuel url).ok = false →
      (downloadLoop fetch join fuel url).writes = []) ∧
    (∀ b, b ∈ (downloadLoop fetch join fuel url).writes →
      b.take 4 = pdfMagic ∧ (downloadLoop fetch join fuel url).ok = true) := by
  induction fuel generalizing url with
  | zero => exact ⟨fun _ => rfl, fun b hb => absurd hb (by simp [downloadLoop])⟩
  | succ n ih =>
    rw [downloadLoop_succ]
    cases hf : fetch url with
    | none => exact ⟨fun _ => rfl, fun b hb => absurd hb (by simp)⟩
    | some resp =>
      simp only
      split
      · split
        · rename_i hb
          refine ⟨fun h => by simp at h, fun b hmem => ?_⟩
          simp only [List.mem_singleton] at hmem
          subst hmem
          exact ⟨hb, rfl⟩
        · exact ⟨fun _ => rfl, fun b hb => absurd hb (by simp)⟩
      · split
        · split
          · exact ⟨fun hok => (ih _).1 hok, fun b hb => (ih _).2 b hb⟩
          · exact ⟨fun _ => rfl, fun b hb => absurd hb (by simp)⟩
        · exact ⟨fun _ => rfl, fun b hb => absurd hb (by simp)⟩

/-- Witness for C9 at a concrete failing run (content-type lie): the failure
outcome implies an empty write log. -/
theorem c9_write_only_after_validation_witness :
    (downloadLoop fetchBadMagic joinId 5 "http://a/doc").writes = [] :=
  (c9_write_only_after_validation fetchBadMagic joinId 5 "http://a/doc").1 (by decide)

/-! ## Claim C2 — priority order of the HTML redirect search

The claim requires the anchor fallback to accept only targets that *end* in
`.pdf`; the code's regex `re.compile(r'\.pdf', re.I)` is unanchored, so any
anchor whose target merely *contains* `.pdf` is followed. -/

/-- Modelled from the claim's words: the same priority chain, but with the
anchor rule reading "any anchor element whose target ends in `.pdf`". -/
def findRedirectClaim (doc : HtmlDoc) : Option String :=
  match doc.scripts.findSome? findJsInScript with
  | some u => some u
  | none =>
    match doc.metas.find? isRefreshMeta with
    | some m =>
      match searchUrlParam m.content.data with
      | some cap => some (String.mk cap)
      | none => doc.anchors.find? (fun h => pyEndsWith (pyLower h) ".pdf")
    | none => doc.anchors.find? (fun h => pyEndsWith (pyLower h) ".pdf")

/-- The amended redirect search, following the spec's priority wording with the
anchor rule corrected to "target contains `.pdf` (case-insensitively)":
(a) first string-literal `window.location` / `window.location.href` assignment
found in a script, (b) else the `url=` parameter of the first meta-refresh
tag's `content`, (c) else the first anchor whose target contains `.pdf`. -/
def findRedirectAmended (doc : HtmlDoc) : Option String :=
  match doc.scripts.findSome? findJsInScript with
  | some u => some u
  | none =>
    match doc.metas.find? isRefreshMeta with
    | some m =>
      match searchUrlParam m.content.data with
      | some cap => some (String.mk cap)
      | none => doc.anchors.find? (fun h => strHasSub (pyLower h) ".pdf")
    | none => doc.anchors.find? (fun h => strHasSub (pyLower h) ".pdf")

/-- An HTML page whose only forward path is an anchor to
`http://x/f.pdf?v=1` — a target that contains but does not end in `.pdf`. -/
def docQueryAnchor : HtmlDoc :=
  { scripts := [], metas := [], anchors := ["http://x/f.pdf?v=1"] }

/-- A two-page server: the start page is the HTML above; the anchor target
serves a valid PDF. -/
def fetchQueryAnchor : String → Option HttpResponse := fun u =>
  if u = "http://a/start" then
    some { contentType := "text/html", bytes := [], doc := docQueryAnchor }
  else if u = "http://x/f.pdf?v=1" then
    some { contentType := "application/pdf", bytes := [37, 80, 68, 70, 49], doc := emptyDoc }
  else none

/-- Counterexample to C2 as stated: on a page whose only redirect hint is an
anchor target containing but not ending in `.pdf`, the claim's three searches
all fail (so the claim says the download fails), yet the code follows the
anchor and the download succeeds. -/
theorem c2_counterexample :
    findRedirectClaim docQueryAnchor = none ∧
    download_pdf fetchQueryAnchor joinId "http://a/start" =
      { ok := true, writes := [[37, 80, 68, 70, 49]], hops := 1, reason := none } := by
  decide

/-- Claim C2 (amended): on every HTML response inside the redirect loop the
next URL is chosen by the priority chain — script `window.location(.href)`
string-literal assignment, then the `url=` parameter of the first meta-refresh
tag, then the first anchor whose target *contains* `.pdf` case-insensitively;
the match, when it does not start with `http`, is joined against the current
URL; if the chain finds nothing the download fails. -/
theorem c2_html_redirect_priority :
    (∀ (fetch : String → Option HttpResponse) (join : String → String → String)
      (url : String) (fuel : Nat) (resp : HttpResponse),
      fetch url = some resp →
      isPdfCT (pyLower resp.contentType) = false →
      strHasSub (pyLower resp.contentType) "text/html" = true →
      downloadLoop fetch join (fuel + 1) url =
        (match findRedirect resp.doc with
         | some t =>
           let r := downloadLoop fetch join fuel (resolveUrl join url t)
           { r with hops := r.hops + 1 }
         | none => { ok := false, writes := [], hops := 0, reason := some .noRedirect })) ∧
    (∀ doc, findRedirect doc = findRedirectAmended doc) ∧
    (∀ (join : String → String → String) (current u : String),
      resolveUrl join current u = if pyStartsWith u "http" then u else join current u) := by
  refine ⟨?_, fun _ => rfl, fun _ _ _ => rfl⟩
  intro fetch join url fuel resp hf hpdf hhtml
  rw [downloadLoop_succ, hf]
  simp only [hpdf, hhtml, Bool.false_eq_true, if_false, if_true]

/-- Witness for the amended C2 on the concrete two-page server. -/
theorem c2_html_redirect_priority_witness :
    downloadLoop fetchQueryAnchor joinId 5 "http://a/start" =
      (match findRedirect docQueryAnchor with
       | some t =>
         let r := downloadLoop fetchQueryAnchor joinId 4 (resolveUrl joinId "http://a/start" t)
         { r with hops := r.hops + 1 }
       | none => { ok := false, writes := [], hops := 0, reason := some .noRedirect }) :=
  c2_html_redirect_priority.1 fetchQueryAnchor joinId "http://a/start" 4
    { contentType := "text/html", bytes := [], doc := docQueryAnchor } rfl (by decide) (by decide)

/-! ## Claim C6 — the ledger merge is idempotent

`save_to_csv` (src/src/scraper.py lines 882-893) concatenates the existing CSV
rows with the new records and applies
`drop_duplicates(subset=['numero_arrete', 'date_publication'], keep='last')`,
which keeps, for each key, the last occurrence, preserving the order of the
kept rows.  pandas treats missing values as equal for duplicate detection, so
cells are modelled as `Option String` (with `none` the missing value) compared
by decidable equality. -/

section Dedup

variable {α β : Type} [DecidableEq β]

/-- Truth of `keyMem k c xs` holds iff some element of `xs` has key `c`. -/
def keyMem (k : α → β) (c : β) (xs : List α) : Bool :=
  xs.any fun y => decide (k y = c)

/-- pandas `drop_duplicates(subset=…, keep='last')`: an element is kept iff no
later element shares its key; kept elements stay in their original order. -/
def dedupKeepLast (k : α → β) : List α → List α
  | [] => []
  | x :: xs =>
    if keyMem k (k x) xs then dedupKeepLast k xs else x :: dedupKeepLast k xs

theorem keyMem_cons (k : α → β) (c : β) (x : α) (t : List α) :
    keyMem k c (x :: t) = (decide (k x = c) || keyMem k c t) := by
  simp [keyMem]

theorem keyMem_append (k : α → β) (c : β) (xs ys : List α) :
    keyMem k c (xs ++ ys) = (keyMem k c xs || keyMem k c ys) := by
  simp [keyMem, List.any_append]

theorem keyMem_of_mem (k : α → β) {y : α} {xs : List α} (hy : y ∈ xs) :
    keyMem k (k y) xs = true := by
  simp only [keyMem, List.any_eq_true, decide_eq_true_eq]
  exact ⟨y, hy, rfl⟩

theorem dedup_cons (k : α → β) (x : α) (t : List α) :
    dedupKeepLast k (x :: t) =
      if keyMem k (k x) t then dedupKeepLast k t else x :: dedupKeepLast k t := rfl

/-- Deduplicating does not change which keys are present. -/
theorem keyMem_dedup (k : α → β) (c : β) (xs : List α) :
    keyMem k c (dedupKeepLast k xs) = keyMem k c xs := by
  induction xs with
  | nil => rfl
  | cons x t ih =>
    rw [dedup_cons]
    by_cases hx : keyMem k (k x) t = true
    · rw [if_pos hx, ih, keyMem_cons]
      by_cases hc : k x = c
      · subst hc; simp [hx]
      · simp [hc]
    · rw [if_neg hx, keyMem_cons, keyMem_cons, ih]

/-- A deduplicated left part can be re-deduplicated against anything appended
on the right without changing the result. -/
theorem dedup_append_left (k : α → β) (xs ys : List α) :
    dedupKeepLast k (dedupKeepLast k xs ++ ys) = dedupKeepLast k (xs ++ ys) := by
  induction xs with
  | nil => rfl
  | cons x t ih =>
    by_cases hx : keyMem k (k x) t = true
    · have hx2 : keyMem k (k x) (t ++ ys) = true := by
        rw [keyMem_append, hx, Bool.true_or]
      rw [dedup_cons, if_pos hx, ih, List.cons_append, dedup_cons, if_pos hx2]
    · rw [dedup_cons, if_neg hx, List.cons_append, dedup_cons]
      rw [List.cons_append, dedup_cons]
      rw [keyMem_append, keyMem_dedup, ← keyMem_append, ih]

/-- A left part all of whose keys already occur on the right is absorbed. -/
theorem dedup_append_absorb (k : α → β) (ys zs : List α)
    (hsub : ∀ y ∈ ys, keyMem k (k y) zs = true) :
    dedupKeepLast k (ys ++ zs) = dedupKeepLast k zs := by
  induction ys with
  | nil => rfl
  | cons y t ih =>
    have hy : keyMem k (k y) (t ++ zs) = true := by
      rw [keyMem_append, hsub y (by simp), Bool.or_true]
    rw [List.cons_append, dedup_cons, if_pos hy, ih (fun z hz => hsub z (by simp [hz]))]

/-- The right part of an append can be replaced by any key-equivalent,
dedup-equal list. -/
theorem dedup_congr_right (k : α → β) (xs zs ws : List α)
    (h1 : ∀ c, keyMem k c zs = keyMem k c ws)
    (h2 : dedupKeepLast k zs = dedupKeepLast k ws) :
    dedupKeepLast k (xs ++ zs) = dedupKeepLast k (xs ++ ws) := by
  induction xs with
  | nil => exact h2
  | cons x t ih =>
    rw [List.cons_append, List.cons_append, dedup_cons, dedup_cons]
    have hc : keyMem k (k x) (t ++ zs) = keyMem k (k x) (t ++ ws) := by
      rw [keyMem_append, keyMem_append, h1]
    rw [hc, ih]

/-- Keep-last dedup of `L ++ R` is unchanged by merging `R` in a second
time. -/
theorem dedup_merge_idem (k : α → β) (L R : List α) :
    dedupKeepLast k (dedupKeepLast k (L ++ R) ++ R) = dedupKeepLast k (L ++ R) := by
  rw [dedup_append_left, List.append_assoc]
  exact dedup_congr_right k L (R ++ R) R
    (fun c => by rw [keyMem_append, Bool.or_self])
    (dedup_append_absorb k R R (fun y hy => keyMem_of_mem k hy))

end Dedup

/-- One row of the tabular ledger (`data/arretes.csv` /
`data/arretes_circulation.csv`): the columns produced by
`extract_arrete_info` plus the two archival columns.  Each cell is an
`Option String`, `none` standing for a pandas missing value. -/
structure Row where
  numero_arrete : Option String
  titre : Option String
  date_publication : Option String
  lien : Option String
  pdf_url : Option String
  is_circulation : Option String
  contenu_preview : Option String
  file_hash : Option String
  pdf_s3_url : Option String
  poids_pdf_ko : Option String
  date_scrape : Option String
  deriving DecidableEq, Repr

/-- The upsert key of `drop_duplicates(subset=['numero_arrete',
'date_publication'])`. -/
def rowKey (r : Row) : Option String × Option String :=
  (r.numero_arrete, r.date_publication)

/-- The merge step of `save_to_csv`: concatenate the existing ledger with the
new records, then drop duplicate keys keeping the last occurrence. -/
def mergeLedger (existing newRows : List Row) : List Row :=
  dedupKeepLast rowKey (existing ++ newRows)

/-- Claim C6: the ledger merge is idempotent — merging the same record set
into the ledger twice yields the same rows (and hence the same row count) as
merging it once, because rows are deduplicated on
(`numero_arrete`, `date_publication`) keeping the last occurrence. -/
theorem c6_ledger_merge_idempotent (existing newRows : List Row) :
    mergeLedger (mergeLedger existing newRows) newRows = mergeLedger existing newRows ∧
    (mergeLedger (mergeLedger existing newRows) newRows).length =
      (mergeLedger existing newRows).length := by
  have h := dedup_merge_idem rowKey existing newRows
  exact ⟨h, congrArg List.length h⟩

/-! ## Claim C8 — the content hash

`extract_arrete_info` computes
`hashlib.md5(f"{numero_arrete}{titre}".encode()).hexdigest()[:8]`
(src/src/scraper.py line 604).  MD5 is embedded below over byte lists, with
32-bit arithmetic carried out on `Nat` modulo `2 ^ 32`. -/

/-- Reduce modulo `2 ^ 32`. -/
def to32 (x : Nat) : Nat := x % 4294967296

/-- Left rotation on 32 bits. -/
def rotl32 (x s : Nat) : Nat := to32 (to32 (x * 2 ^ s) + x / 2 ^ (32 - s))

/-- Bitwise complement on 32 bits (inputs are kept below `2 ^ 32`). -/
def not32 (x : Nat) : Nat := x ^^^ 4294967295

/-- The 64 MD5 sine-derived round constants `K[i] = floor(abs(sin(i+1)) * 2^32)`. -/
def md5K : List Nat :=
  [0xd76aa478, 0xe8c7b756, 0x242070db, 0xc1bdceee,
   0xf57c0faf, 0x4787c62a, 0xa8304613, 0xfd469501,
   0x698098d8, 0x8b44f7af, 0xffff5bb1, 0x895cd7be,
   0x6b901122, 0xfd987193, 0xa679438e, 0x49b40821,
   0xf61e2562, 0xc040b340, 0x265e5a51, 0xe9b6c7aa,
   0xd62f105d, 0x02441453, 0xd8a1e681, 0xe7d3fbc8,
   0x21e1cde6, 0xc33707d6, 0xf4d50d87, 0x455a14ed,
   0xa9e3e905, 0xfcefa3f8, 0x676f02d9, 0x8d2a4c8a,
   0xfffa3942, 0x8771f681, 0x6d9d6122, 0xfde5380c,
   0xa4beea44, 0x4bdecfa9, 0xf6bb4b60, 0xbebfbc70,
   0x289b7ec6, 0xeaa127fa, 0xd4ef3085, 0x04881d05,
   0xd9d4d039, 0xe6db99e5, 0x1fa27cf8, 0xc4ac5665,
   0xf4292244, 0x432aff97, 0xab9423a7, 0xfc93a039,
   0x655b59c3, 0x8f0ccc92, 0xffeff47d, 0x85845dd1,
   0x6fa87e4f, 0xfe2ce6e0, 0xa3014314, 0x4e0811a1,
   0xf7537e82, 0xbd3af235, 0x2ad7d2bb, 0xeb86d391]

/-- The per-round left-rotation amounts. -/
def md5S : List Nat :=
  [7, 12, 17, 22, 7, 12, 17, 22, 7, 12, 17, 22, 7, 12, 17, 22,
   5, 9, 14, 20, 5, 9, 14, 20, 5, 9, 14, 20, 5, 9, 14, 20,
   4, 11, 16, 23, 4, 11, 16, 23, 4, 11, 16, 23, 4, 11, 16, 23,
   6, 10, 15, 21, 6, 10, 15, 21, 6, 10, 15, 21, 6, 10, 15, 21]

/-- Little-endian 32-bit word from the first four entries of a byte list
(missing entries read as 0; blocks are always complete here). -/
def leWord : List Nat → Nat
  | b0 :: b1 :: b2 :: b3 :: _ => b0 + 256 * b1 + 65536 * b2 + 16777216 * b3
  | [b0, b1, b2] => b0 + 256 * b1 + 65536 * b2
  | [b0, b1] => b0 + 256 * b1
  | [b0] => b0
  | [] => 0

/-- A 32-bit word serialized as four little-endian bytes. -/
def le4 (n : Nat) : List Nat :=
  [n % 256, n / 256 % 256, n / 65536 % 256, n / 16777216 % 256]

/-- The length footer: `len * 8 mod 2 ^ 64` as eight little-endian bytes. -/
def le8 (n : Nat) : List Nat :=
  [n % 256, n / 256 % 256, n / 65536 % 256, n / 16777216 % 256,
   n / 4294967296 % 256, n / 1099511627776 % 256,
   n / 281474976710656 % 256, n / 72057594037927936 % 256]

/-- One MD5 round on the working state `(A, B, C, D)`; `M g` is the `g`-th
word of the current block. -/
def md5Round (M : Nat → Nat) (st : Nat × Nat × Nat × Nat) (i : Nat) :
    Nat × Nat × Nat × Nat :=
  let A := st.1
  let B := st.2.1
  let C := st.2.2.1
  let D := st.2.2.2
  let F :=
    if i < 16 then (B &&& C) ||| (not32 B &&& D)
    else if i < 32 then (D &&& B) ||| (not32 D &&& C)
    else if i < 48 then B ^^^ C ^^^ D
    else C ^^^ (B ||| not32 D)
  let g :=
    if i < 16 then i
    else if i < 32 then (5 * i + 1) % 16
    else if i < 48 then (3 * i + 5) % 16
    else 7 * i % 16
  let Fv := to32 (F + A + md5K.getD i 0 + M g)
  (D, to32 (B + rotl32 Fv (md5S.getD i 0)), B, C)

/-- Process one 64-byte block into the chaining state. -/
def md5Block (st : Nat × Nat × Nat × Nat) (block : List Nat) :
    Nat × Nat × Nat × Nat :=
  let M := fun g => leWord (block.drop (4 * g))
  let w := (List.range 64).foldl (md5Round M) st
  (to32 (st.1 + w.1), to32 (st.2.1 + w.2.1),
   to32 (st.2.2.1 + w.2.2.1), to32 (st.2.2.2 + w.2.2.2))

/-- Split a byte list into 64-byte chunks (structural recursion on a fuel
argument so that the kernel can evaluate it; each step consumes at least one
element, so `l.length` steps always suffice). -/
def chunks64Go : Nat → List Nat → List (List Nat)
  | 0, _ => []
  | fuel + 1, l => if l.isEmpty then [] else l.take 64 :: chunks64Go fuel (l.drop 64)

/-- Split a byte list into 64-byte chunks. -/
def chunks64 (l : List Nat) : List (List Nat) :=
  chunks64Go l.length l

/-- MD5 padding: a `0x80` byte, zeros to 56 mod 64, then the 64-bit
little-endian bit length. -/
def md5Pad (msg : List Nat) : List Nat :=
  msg ++ 128 :: List.replicate ((120 - (msg.length + 1) % 64) % 64) 0
      ++ le8 (msg.length * 8 % 18446744073709551616)

/-- The 16-byte MD5 digest of a byte list. -/
def md5Bytes (msg : List Nat) : List Nat :=
  let st := (chunks64 (md5Pad msg)).foldl md5Block
    (0x67452301, 0xefcdab89, 0x98badcfe, 0x10325476)
  le4 st.1 ++ le4 st.2.1 ++ le4 st.2.2.1 ++ le4 st.2.2.2

/-- One byte as two lowercase hex characters. -/
def hexPair (b : Nat) : List Char :=
  [if b / 16 < 10 then Char.ofNat (48 + b / 16) else Char.ofNat (87 + b / 16),
   if b % 16 < 10 then Char.ofNat (48 + b % 16) else Char.ofNat (87 + b % 16)]

/-- UTF-8 encoding of one Unicode code point `n`, as byte values. -/
def utf8Enc (n : Nat) : List Nat :=
  if n < 128 then [n]
  else if n < 2048 then [192 + n / 64, 128 + n % 64]
  else if n < 65536 then [224 + n / 4096, 128 + n / 64 % 64, 128 + n % 64]
  else [240 + n / 262144, 128 + n / 4096 % 64, 128 + n / 64 % 64, 128 + n % 64]

/-- Python's `str.encode()`: the UTF-8 bytes of a string. -/
def strBytes (s : String) : List Nat :=
  s.data.flatMap (fun c => utf8Enc c.toNat)

/-- The digest `hashlib.md5(s.encode()).hexdigest()`. -/
def md5Hex (s : String) : String :=
  String.mk (((md5Bytes (strBytes s)).map hexPair).flatten)

/-- The content hash of `extract_arrete_info`:
`hashlib.md5(f"{numero_arrete}{titre}".encode()).hexdigest()[:8]`. -/
def file_hash (numero titre : String) : String :=
  pySlice (md5Hex (numero ++ titre)) 8

set_option maxRecDepth 100000 in
/-- MD5 test vectors (RFC 1321), checking the embedding against the reference
implementation the source calls. -/
theorem md5Hex_test_vectors :
    md5Hex "" = "d41d8cd98f00b204e9800998ecf8427e" ∧
    md5Hex "abc" = "900150983cd24fb0d6963f7d28e17f72" := by
  constructor <;> decide

/-- The MD5 digest always has 16 bytes, whatever the message. -/
theorem md5Bytes_length (msg : List Nat) : (md5Bytes msg).length = 16 := by
  simp [md5Bytes, le4]

theorem flatten_map_hexPair_length (l : List Nat) :
    ((l.map hexPair).flatten).length = 2 * l.length := by
  induction l with
  | nil => rfl
  | cons b t ih =>
    simp only [List.map_cons, List.flatten_cons, List.length_append, ih, hexPair,
      List.length_cons, List.length_nil, List.length_cons]
    omega

/-- The hex digest always has 32 characters. -/
theorem md5Hex_length (s : String) : (md5Hex s).length = 32 := by
  show (((md5Bytes (strBytes s)).map hexPair).flatten).length = 32
  rw [flatten_map_hexPair_length, md5Bytes_length]

/-- Claim C8: the content hash is a deterministic function of
(`numero_arrete`, `titre`) — equal inputs give equal hashes — and its output
always has the same fixed length (8 hex characters, the `[:8]` slice of the
32-character MD5 hex digest). -/
theorem c8_content_hash_deterministic :
    (∀ n t n2 t2, n = n2 → t = t2 → file_hash n t = file_hash n2 t2) ∧
    (∀ n t, (file_hash n t).length = 8) := by
  refine ⟨fun n t n2 t2 hn ht => by rw [hn, ht], fun n t => ?_⟩
  show ((md5Hex (n ++ t)).data.take 8).length = 8
  have h : (md5Hex (n ++ t)).data.length = 32 := md5Hex_length (n ++ t)
  rw [List.length_take, h]
  decide

/-- Witness for C8 at concrete inputs. -/
theorem c8_content_hash_deterministic_witness :
    file_hash "2024-00123" "Arrêté portant circulation rue X" =
      file_hash "2024-00123" "Arrêté portant circulation rue X" ∧
    (file_hash "2024-00123" "Arrêté portant circulation rue X").length = 8 :=
  ⟨c8_content_hash_deterministic.1 _ _ _ _ rfl rfl,
   c8_content_hash_deterministic.2 _ _⟩

/-! ## The archival pipelines

Two implementations archive PDFs to S3:
* the archival loop at the end of `scrape_arretes` (src/src/scraper.py lines
  812-848), and
* `process_csv` of src/rescrape_missing_s3.py (lines 255-388).

The S3 client, the network and the float formatting of file sizes are external
collaborators, bundled into an `ArchiveEnv`. -/

/-- Python `str(cell)` for a pandas cell: a missing value (`NaN`) prints as `"nan"`;
for the in-memory dict records of `scrape_arretes` every field is a genuine
string, i.e. a `some`. -/
def cellStr : Option String → String
  | none => "nan"
  | some s => s

/-- Python `\w` restricted to ASCII: letters, digits, underscore (the decree
numbers matched by the extraction regexes are ASCII). -/
def isWordChar (c : Char) : Bool := c.isAlphanum || c = '_'

/-- The sanitizer `re.sub(r'[^\w\s-]', '', s).strip()`: delete every character that is not a
word character, whitespace or a hyphen, then strip. -/
def sanitizeNumero (s : String) : String :=
  pyStrip (String.mk (s.data.filter fun c => isWordChar c || c.isWhitespace || c = '-'))

/-- The variable `numero_clean`, with the `if not numero_clean: numero_clean = "arrete"`
fallback. -/
def numeroClean (s : String) : String :=
  if sanitizeNumero s = "" then "arrete" else sanitizeNumero s

/-- Four consecutive ASCII digits at the head of the list, as a number. -/
def fourDigitsAt : List Char → Option Nat
  | a :: b :: c :: d :: _ =>
    if a.isDigit && b.isDigit && c.isDigit && d.isDigit then
      some (1000 * (a.toNat - 48) + 100 * (b.toNat - 48) + 10 * (c.toNat - 48)
        + (d.toNat - 48))
    else none
  | _ => none

/-- Search `re.search(r'(\d{4})', s)`: the leftmost run of four digits. -/
def findYear : List Char → Option Nat
  | [] => none
  | c :: cs =>
    match fourDigitsAt (c :: cs) with
    | some y => some y
    | none => findYear cs

/-- The year computation of `process_csv`:
`annee = datetime.now().year`, then, when `date_publication` is non-empty and
contains four consecutive digits, `annee = int(match.group(1))`. -/
def parseAnnee (nowYear : Nat) (datePub : String) : Nat :=
  if datePub = "" then nowYear
  else
    match findYear datePub.data with
    | some y => y
    | none => nowYear

/-- The storage key derived by `process_csv`:
`arretes/{annee}/{numero_clean}_{file_hash}.pdf` with the year parsed from the
publication date. -/
def rescrapeS3Key (nowYear : Nat) (numero fileHash datePub : String) : String :=
  "arretes/" ++ toString (parseAnnee nowYear datePub) ++ "/" ++ numeroClean numero
    ++ "_" ++ fileHash ++ ".pdf"

/-- The storage key derived by `scrape_arretes`:
`arretes/{annee}/{numero_clean}_{file_hash}.pdf` where
`annee = datetime.now().year` unconditionally. -/
def scrapeS3Key (nowYear : Nat) (numero fileHash : String) : String :=
  "arretes/" ++ toString nowYear ++ "/" ++ numeroClean numero ++ "_" ++ fileHash ++ ".pdf"

/-- The external collaborators of the archival pipelines: the current year,
the bucket name, `head_object` (`none` = absent/404/dry-run), the downloader
outcome and the size of the downloaded file, `upload_file` success, and the
float formatting `round(size/1024, 2)` (floating point is outside the
embedding, so the rendering is an oracle). -/
structure ArchiveEnv where
  nowYear : Nat
  bucket : String
  s3Exists : String → Option Nat
  downloadOk : String → Bool
  uploadOk : String → Bool
  downloadSize : String → Nat
  kbOf : Nat → String

/-- One selected row of `process_csv`'s loop body (lines 298-377): strip the
four fields, skip when number/hash/url is empty, derive the key, adopt an
existing S3 object, otherwise download then upload, writing either the S3 URL
or an explicit `ERROR:` sentinel into `pdf_s3_url`. -/
def processRow (env : ArchiveEnv) (r : Row) : Row :=
  if pyStrip (cellStr r.numero_arrete) = "" ∨ pyStrip (cellStr r.file_hash) = ""
      ∨ pyStrip (cellStr r.pdf_url) = "" then r
  else
    match env.s3Exists (rescrapeS3Key env.nowYear (pyStrip (cellStr r.numero_arrete))
        (pyStrip (cellStr r.file_hash)) (pyStrip (cellStr r.date_publication))) with
    | some size =>
      { r with
        pdf_s3_url := some ("s3://" ++ env.bucket ++ "/" ++
          rescrapeS3Key env.nowYear (pyStrip (cellStr r.numero_arrete))
            (pyStrip (cellStr r.file_hash)) (pyStrip (cellStr r.date_publication))),
        poids_pdf_ko := some (env.kbOf size) }
    | none =>
      if env.downloadOk (pyStrip (cellStr r.pdf_url)) then
        if env.uploadOk (rescrapeS3Key env.nowYear (pyStrip (cellStr r.numero_arrete))
            (pyStrip (cellStr r.file_hash)) (pyStrip (cellStr r.date_publication))) then
          { r with
            pdf_s3_url := some ("s3://" ++ env.bucket ++ "/" ++
              rescrapeS3Key env.nowYear (pyStrip (cellStr r.numero_arrete))
                (pyStrip (cellStr r.file_hash)) (pyStrip (cellStr r.date_publication))),
            poids_pdf_ko := some (env.kbOf (env.downloadSize (pyStrip (cellStr r.pdf_url)))) }
        else { r with pdf_s3_url := some "ERROR: Upload S3 échoué" }
      else { r with pdf_s3_url := some "ERROR: PDF non téléchargé" }

/-- The row-selection mask of `process_csv` (line 284):
`isna | (astype(str).strip() == '') | (astype(str) == 'nan')`. -/
def blankCell (v : Option String) : Bool :=
  decide (v = none) || decide (pyStrip (cellStr v) = "") || decide (cellStr v = "nan")

/-- A row is selected for processing iff its `pdf_s3_url` cell is blank in the
mask's sense. -/
def maskMissing (r : Row) : Bool := blankCell r.pdf_s3_url

/-- The loop of `process_csv` on an in-memory frame whose required columns are present:
rows selected by the mask are processed in place; all other rows are written
back unchanged. -/
def process_csv (env : ArchiveEnv) (df : List Row) : List Row :=
  df.map fun r => if maskMissing r then processRow env r else r

/-- The per-record body of the archival loop of `scrape_arretes` (lines
817-848), for a record with a truthy `pdf_url`: download with `download_pdf`;
on success upload under `arretes/{datetime.now().year}/...` and record URL and
size — but when the upload returns `None` nothing is recorded; on download
failure record the `ERROR:` sentinel. -/
def scrapeArchiveStep (env : ArchiveEnv) (a : Row) : Row :=
  match a.pdf_url with
  | none => a
  | some purl =>
    if purl = "" then a
    else if env.downloadOk purl then
      if env.uploadOk (scrapeS3Key env.nowYear (cellStr a.numero_arrete)
          (cellStr a.file_hash)) then
        { a with
          pdf_s3_url := some ("s3://" ++ env.bucket ++ "/" ++
            scrapeS3Key env.nowYear (cellStr a.numero_arrete) (cellStr a.file_hash)),
          poids_pdf_ko := some (env.kbOf (env.downloadSize purl)) }
      else a
    else { a with pdf_s3_url := some "ERROR: PDF non téléchargé" }

/-! ## Fixtures for the archival claims -/

/-- A record with a parseable 2023 publication date and a valid PDF URL. -/
def recPdf : Row :=
  { numero_arrete := some "2023-00123", titre := some "Arrêté portant circulation",
    date_publication := some "12/05/2023", lien := some "http://site/detail",
    pdf_url := some "http://x/a.pdf", is_circulation := some "True",
    contenu_preview := some "c", file_hash := some "abcd1234",
    pdf_s3_url := none, poids_pdf_ko := none, date_scrape := some "2025-10-12" }

/-- An environment in which the download succeeds but the S3 upload fails. -/
def envUploadFail : ArchiveEnv :=
  { nowYear := 2025, bucket := "bkt", s3Exists := fun _ => none,
    downloadOk := fun _ => true, uploadOk := fun _ => false,
    downloadSize := fun _ => 1024, kbOf := fun _ => "1.0" }

/-- An environment in which download and upload both succeed. -/
def envArchOk : ArchiveEnv :=
  { nowYear := 2025, bucket := "bkt", s3Exists := fun _ => none,
    downloadOk := fun _ => true, uploadOk := fun _ => true,
    downloadSize := fun _ => 2048, kbOf := fun _ => "2.0" }

/-- An environment in which every download fails. -/
def envDlFail : ArchiveEnv :=
  { nowYear := 2025, bucket := "bkt", s3Exists := fun _ => none,
    downloadOk := fun _ => false, uploadOk := fun _ => false,
    downloadSize := fun _ => 0, kbOf := fun _ => "0" }

/-! ## Claim C4 — `storage_url` after an attempted archival -/

/-- Counterexample to C4 as stated: in `scrape_arretes`, when the download
succeeds and the S3 upload then fails, no sentinel is written — the record's
`pdf_s3_url` is left blank (absent) after the attempted archival. -/
theorem c4_counterexample :
    recPdf.pdf_url = some "http://x/a.pdf" ∧
    envUploadFail.downloadOk "http://x/a.pdf" = true ∧
    envUploadFail.uploadOk (scrapeS3Key 2025 "2023-00123" "abcd1234") = false ∧
    (scrapeArchiveStep envUploadFail recPdf).pdf_s3_url = none := by
  decide

/-- Claim C4 (amended): in the rescrape pass (`process_csv`), a selected row
with non-empty number, hash and URL always ends with a non-blank
`pdf_s3_url` — an S3 URL on success (or an already-archived object), or an
explicit sentinel naming the failed step; in `scrape_arretes` the sentinel is
guaranteed for download failures, while an upload failure leaves the field
unset. -/
theorem c4_storage_url_sentinel :
    (∀ (env : ArchiveEnv) (r : Row),
      pyStrip (cellStr r.numero_arrete) ≠ "" →
      pyStrip (cellStr r.file_hash) ≠ "" →
      pyStrip (cellStr r.pdf_url) ≠ "" →
      ∃ s, (processRow env r).pdf_s3_url = some s ∧ s.length ≠ 0 ∧
        (s = "s3://" ++ env.bucket ++ "/" ++
            rescrapeS3Key env.nowYear (pyStrip (cellStr r.numero_arrete))
              (pyStrip (cellStr r.file_hash)) (pyStrip (cellStr r.date_publication)) ∨
         s = "ERROR: Upload S3 échoué" ∨ s = "ERROR: PDF non téléchargé")) ∧
    (∀ (env : ArchiveEnv) (a : Row) (purl : String),
      a.pdf_url = some purl → purl ≠ "" → env.downloadOk purl = false →
      (scrapeArchiveStep env a).pdf_s3_url = some "ERROR: PDF non téléchargé") := by
  constructor
  · intro env r hn hh hu
    have hlen : ("s3://" ++ env.bucket ++ "/" ++
        rescrapeS3Key env.nowYear (pyStrip (cellStr r.numero_arrete))
          (pyStrip (cellStr r.file_hash)) (pyStrip (cellStr r.date_publication))).length ≠ 0 := by
      simp only [String.length_append]
      have h5 : ("s3://" : String).length = 5 := rfl
      omega
    unfold processRow
    rw [if_neg (by tauto)]
    cases hse : env.s3Exists (rescrapeS3Key env.nowYear (pyStrip (cellStr r.numero_arrete))
        (pyStrip (cellStr r.file_hash)) (pyStrip (cellStr r.date_publication))) with
    | some size => exact ⟨_, rfl, hlen, Or.inl rfl⟩
    | none =>
      by_cases hdl : env.downloadOk (pyStrip (cellStr r.pdf_url)) = true
      · rw [if_pos hdl]
        by_cases hup : env.uploadOk (rescrapeS3Key env.nowYear
            (pyStrip (cellStr r.numero_arrete)) (pyStrip (cellStr r.file_hash))
            (pyStrip (cellStr r.date_publication))) = true
        · rw [if_pos hup]
          exact ⟨_, rfl, hlen, Or.inl rfl⟩
        · rw [if_neg hup]
          exact ⟨_, rfl, by decide, Or.inr (Or.inl rfl)⟩
      · rw [if_neg hdl]
        exact ⟨_, rfl, by decide, Or.inr (Or.inr rfl)⟩
  · intro env a purl hp hne hdl
    unfold scrapeArchiveStep
    rw [hp]
    simp only [if_neg hne, hdl, Bool.false_eq_true, if_false]

/-- Witness for the amended C4: a concrete failing download in
`scrape_arretes` gets the explicit sentinel. -/
theorem c4_storage_url_sentinel_witness :
    (scrapeArchiveStep envDlFail recPdf).pdf_s3_url = some "ERROR: PDF non téléchargé" :=
  c4_storage_url_sentinel.2 envDlFail recPdf "http://x/a.pdf" rfl (by decide) rfl

/-! ## Claim C7 — the storage-key derivation -/

/-- Modelled from the claim's words: the storage key
`arretes/<year>/<sanitized-number>_<hash>.pdf`, where `<year>` is parsed from
the record's `publication_date` and defaults to the current year only when no
four-digit year can be found in it. -/
def claimStorageKey (nowYear : Nat) (numero fileHash datePub : String) : String :=
  "arretes/" ++
    toString (match findYear datePub.data with | some y => y | none => nowYear) ++
    "/" ++ numeroClean numero ++ "_" ++ fileHash ++ ".pdf"

/-- Counterexample to C7 as stated: `scrape_arretes` always uses
`datetime.now().year`, even for a record whose `publication_date` parses to
2023 — the pipeline stores under `arretes/2025/…`, not the claimed
`arretes/2023/…`. -/
theorem c7_counterexample :
    recPdf.date_publication = some "12/05/2023" ∧
    claimStorageKey 2025 "2023-00123" "abcd1234" "12/05/2023" =
      "arretes/2023/2023-00123_abcd1234.pdf" ∧
    scrapeS3Key 2025 "2023-00123" "abcd1234" =
      "arretes/2025/2023-00123_abcd1234.pdf" ∧
    scrapeS3Key 2025 "2023-00123" "abcd1234" ≠
      claimStorageKey 2025 "2023-00123" "abcd1234" "12/05/2023" ∧
    (scrapeArchiveStep envArchOk recPdf).pdf_s3_url =
      some "s3://bkt/arretes/2025/2023-00123_abcd1234.pdf" := by
  decide

/-- Claim C7 (amended): in the rescrape pass (`process_csv`) the storage key
is exactly the claimed derivation — `arretes/<year>/<sanitized>_<hash>.pdf`
with the year parsed from `publication_date` and the current year as fallback;
in `scrape_arretes` the year component is always the current year. -/
theorem c7_storage_key_derivation :
    (∀ (nowYear : Nat) (numero fileHash datePub : String),
      rescrapeS3Key nowYear numero fileHash datePub =
        claimStorageKey nowYear numero fileHash datePub) ∧
    (∀ (nowYear : Nat) (numero fileHash : String),
      scrapeS3Key nowYear numero fileHash =
        "arretes/" ++ toString nowYear ++ "/" ++ numeroClean numero ++ "_"
          ++ fileHash ++ ".pdf") := by
  refine ⟨fun ny n fh d => ?_, fun _ _ _ => rfl⟩
  unfold rescrapeS3Key claimStorageKey parseAnnee
  by_cases hd : d = ""
  · subst hd; rfl
  · rw [if_neg hd]

/-! ## Claim C10 — the rescrape pass only touches blank rows -/

/-- A row already archived in an earlier run. -/
def recStored : Row :=
  { recPdf with pdf_s3_url := some "s3://bkt/arretes/2023/2023-00123_abcd1234.pdf",
                poids_pdf_ko := some "12.5" }

/-- A row whose `pdf_s3_url` cell holds the literal string `"nan"` — a
non-empty string, but one the mask counts as missing. -/
def recNanCell : Row := { recPdf with pdf_s3_url := some "nan" }

/-- Counterexample to C10 as stated: a row carrying the non-empty
`pdf_s3_url` string `"nan"` is selected by the mask and rewritten (here to the
download-failure sentinel), so not every row with a non-empty `storage_url`
is left unchanged. -/
theorem c10_counterexample :
    recNanCell.pdf_s3_url = some "nan" ∧ ("nan" : String) ≠ "" ∧
    process_csv envDlFail [recNanCell] ≠ [recNanCell] ∧
    (process_csv envDlFail [recNanCell]).map (fun r => r.pdf_s3_url) =
      [some "ERROR: PDF non téléchargé"] := by
  decide

/-- Claim C10 (amended): `process_csv` modifies only rows whose `pdf_s3_url`
is missing, blank, or the literal string `"nan"` (the stringified missing
value); every other row — in particular every row holding an error sentinel
from a previous failed attempt — is returned entirely unchanged, and such
sentinel rows are never retried. -/
theorem c10_rescrape_touches_only_blank_rows :
    (∀ (env : ArchiveEnv) (df : List Row) (i : Nat) (r : Row),
      df[i]? = some r → maskMissing r = false →
      (process_csv env df)[i]? = some r) ∧
    (∀ (env : ArchiveEnv) (df : List Row) (i : Nat) (r : Row),
      df[i]? = some r →
      (r.pdf_s3_url = some "ERROR: PDF non téléchargé" ∨
       r.pdf_s3_url = some "ERROR: Upload S3 échoué") →
      (process_csv env df)[i]? = some r) := by
  have h1 : ∀ (env : ArchiveEnv) (df : List Row) (i : Nat) (r : Row),
      df[i]? = some r → maskMissing r = false →
      (process_csv env df)[i]? = some r := by
    intro env df i r hi hm
    unfold process_csv
    rw [List.getElem?_map, hi]
    simp [hm]
  refine ⟨h1, fun env df i r hi hs => h1 env df i r hi ?_⟩
  show blankCell r.pdf_s3_url = false
  rcases hs with h | h <;> rw [h] <;> decide

/-- Witness for the amended C10: an already-archived row passes through a
processing run unchanged. -/
theorem c10_rescrape_touches_only_blank_rows_witness :
    (process_csv envDlFail [recStored])[0]? = some recStored :=
  c10_rescrape_touches_only_blank_rows.1 envDlFail [recStored] 0 recStored rfl (by decide)

end ScrapePref
